import Mathlib

/-!
Shallow embedding of the Toronto Taxi Fare Finder core
(src/js/taxi_fare_finder.js): the `Decimal` fixed-precision wrapper, the
fare computation of `FareCalculator.updateContent`, and the observable
output behaviour of the two click handlers (`MapDisplay.updateContent`
and `FareCalculator.updateContent`) against the Google mapping
collaborator.  Numbers are modelled as exact rationals; `Math.floor` and
`Math.ceil` are `Int.floor` and `Int.ceil`.
-/

namespace TaxiFare

/-- The `Decimal` object of the source (lines 736-739): a raw numeric
amount together with a number of decimal places. -/
structure Decimal where
  amount : ℚ
  decimalPlaces : ℕ
deriving DecidableEq

/-- The scale computed by the loop in `Decimal.prototype.valueOf`
(lines 746-750): `scale = 1; for (i = 0; i < decimalPlaces; i++) scale *= 10`. -/
def scaleOf : ℕ → ℚ
  | 0 => 1
  | n + 1 => scaleOf n * 10

/-- `Decimal.prototype.valueOf` (line 752):
`Math.floor(this.amount * scale) / scale`. -/
def Decimal.value (d : Decimal) : ℚ :=
  (⌊d.amount * scaleOf d.decimalPlaces⌋ : ℚ) / scaleOf d.decimalPlaces

/-- The truncation operation as the specification words it:
`truncate(x, n) = floor(x * 10^n) / 10^n`. -/
def truncate (x : ℚ) (n : ℕ) : ℚ := (⌊x * 10 ^ n⌋ : ℚ) / 10 ^ n

/-- Zero-pads a digit list on the left to width `w`, as fixed-point
formatting of a fractional part requires. -/
def padZeros (s : List Char) (w : ℕ) : List Char :=
  List.replicate (w - s.length) '0' ++ s

/-- Renders a non-negative scaled integer `m` with `d` of its trailing
digits behind the decimal point. -/
def fixedDigits (m d : ℕ) : String :=
  if d = 0 then Nat.repr m
  else Nat.repr (m / 10 ^ d) ++ "." ++ String.mk (padZeros (Nat.repr (m % 10 ^ d)).data d)

/-- Model of the JavaScript runtime `Number.prototype.toFixed(d)`: the
sign is taken from the argument, and the magnitude is rounded to the
integer `n` minimising the distance to `|x| * 10^d`, ties picking the
larger `n` (ECMA-262), i.e. `n = floor(|x| * 10^d + 1/2)`. -/
def jsToFixed (d : ℕ) (x : ℚ) : String :=
  if x < 0 then "-" ++ fixedDigits (⌊-x * 10 ^ d + 1 / 2⌋).toNat d
  else fixedDigits (⌊x * 10 ^ d + 1 / 2⌋).toNat d

/-- `Decimal.prototype.toCurrency` (line 765):
`unitPrefix + Number(this).toFixed(2)`; `Number(this)` invokes `valueOf`. -/
def Decimal.toCurrency (d : Decimal) (pre : String) : String :=
  pre ++ jsToFixed 2 d.value

/-- `Decimal.prototype.toDistance` (line 778):
`Number(this).toFixed(3) + unitSuffix`. -/
def Decimal.toDistance (d : Decimal) (suf : String) : String :=
  jsToFixed 3 d.value ++ suf

/-- `Math.ceil`, as JavaScript applies it inside the fare computation:
the ceiling of the argument, returned as a number again. -/
def jsCeil (x : ℚ) : ℚ := (⌈x⌉ : ℤ)

/-- The `fare` associative array handed to `FareCalculator`
(lines 128-135): three configuration constants wrapped as `Decimal`s. -/
structure FareConfig where
  baseRate : Decimal
  distanceUnit : Decimal
  ratePerDistanceUnit : Decimal
deriving DecidableEq

/-- `TaxiFareFinder.initialize` (lines 129-135): the parsed configuration
constants are wrapped as `new Decimal(.., 2)`, `new Decimal(.., 3)` and
`new Decimal(.., 2)` respectively. -/
def mkFareConfig (baseRateRaw distanceUnitRaw ratePerDistanceUnitRaw : ℚ) : FareConfig :=
  ⟨⟨baseRateRaw, 2⟩, ⟨distanceUnitRaw, 3⟩, ⟨ratePerDistanceUnitRaw, 2⟩⟩

/-- The four closure variables of `FareCalculator` (lines 671-680) as they
stand after a successful run of the route callback. -/
structure FareVars where
  totalDistance : Decimal
  distanceOverBase : Decimal
  distanceFare : Decimal
  totalFare : Decimal
deriving DecidableEq

/-- The arithmetic core of the route callback in
`FareCalculator.updateContent` (lines 700-716).  JavaScript coerces each
`Decimal` to a number through `valueOf` wherever it appears in
arithmetic, so every use of a `Decimal` operand below reads `.value`:
`totalDistance = new Decimal(distanceMeters / 1000, 3)`;
`distanceOverBase = new Decimal(totalDistance - fare.distanceUnit, 3)`;
`distanceFare = new Decimal(fare.ratePerDistanceUnit * Math.ceil(distanceOverBase / fare.distanceUnit), 2)`;
`totalFare = new Decimal(fare.baseRate + distanceFare, 2)`. -/
def updateContentCompute (fare : FareConfig) (distanceMeters : ℚ) : FareVars :=
  let totalDistance : Decimal := ⟨distanceMeters / 1000, 3⟩
  let distanceOverBase : Decimal := ⟨totalDistance.value - fare.distanceUnit.value, 3⟩
  let distanceFare : Decimal :=
    ⟨fare.ratePerDistanceUnit.value * jsCeil (distanceOverBase.value / fare.distanceUnit.value), 2⟩
  let totalFare : Decimal := ⟨fare.baseRate.value + distanceFare.value, 2⟩
  ⟨totalDistance, distanceOverBase, distanceFare, totalFare⟩

/-- The tier count: the inline subexpression
`Math.ceil(distanceOverBase / fare.distanceUnit)` of line 712, as the
integer it denotes. -/
def tierCount (fare : FareConfig) (distanceMeters : ℚ) : ℤ :=
  ⌈(updateContentCompute fare distanceMeters).distanceOverBase.value / fare.distanceUnit.value⌉

/-- A geocoder result coordinate (`results[0].geometry.location`). -/
structure LatLng where
  lat : ℚ
  lng : ℚ
deriving DecidableEq

/-- The `distance` field of a route leg: the Google directions API carries
a numeric `value` in meters next to a display `text`. -/
structure DistanceField where
  value : ℚ
  text : String
deriving DecidableEq

/-- One leg of a returned route; only `distance.value` is ever read by the
fare calculator, `duration` stands for the remaining fields. -/
structure Leg where
  distance : DistanceField
  duration : ℚ
deriving DecidableEq

/-- One route of a directions response; `summary` stands for the fields
the fare calculator never reads. -/
structure Route where
  legs : List Leg
  summary : String
deriving DecidableEq

/-- A successful directions response; `copyrights` stands for the fields
the fare calculator never reads. -/
structure RouteResponse where
  routes : List Route
  copyrights : String
deriving DecidableEq

/-- The datum line 701 extracts: `response.routes[0].legs[0].distance.value`,
when a first leg of a first route exists. -/
def firstLegDistance (r : RouteResponse) : Option ℚ :=
  match r.routes with
  | [] => none
  | rt :: _ =>
    match rt.legs with
    | [] => none
    | leg :: _ => some leg.distance.value

/-- An observable interaction with the fare output field: either
`fareOutput.showFare(fareText, distanceText)` or
`fareOutput.showMessage(text, styleClass)`. -/
inductive Output where
  | fare (fareText distanceText : String)
  | message (text styleClass : String)
deriving DecidableEq

/-- The mutable closure state of `FareCalculator` between clicks: the four
variables of lines 671-680, undefined until first assigned. -/
structure CalcState where
  totalDistance : Option Decimal
  distanceOverBase : Option Decimal
  distanceFare : Option Decimal
  totalFare : Option Decimal
deriving DecidableEq

/-- The closure state before any click: all four variables undefined. -/
def initialCalcState : CalcState := ⟨none, none, none, none⟩

/-- The route callback of `FareCalculator.updateContent` (lines 698-723)
as a state transformer.  A `none` response stands for a non-OK directions
status: the `if` guard fails, so nothing is assigned and nothing is
shown.  On an OK response the four variables are assigned and
`fareOutput.showFare(totalFare.toCurrency('$'), totalDistance.toDistance(' km'))`
is the one observable output.  (An OK response with no first route leg
would throw in the source; it is modelled as producing nothing, and no
claim exercises it.) -/
def calcStep (fare : FareConfig) (st : CalcState) (resp : Option RouteResponse) :
    CalcState × List Output :=
  match resp with
  | none => (st, [])
  | some r =>
    match firstLegDistance r with
    | none => (st, [])
    | some d =>
      let o := updateContentCompute fare d
      (⟨some o.totalDistance, some o.distanceOverBase, some o.distanceFare, some o.totalFare⟩,
        [Output.fare (o.totalFare.toCurrency "$") (o.totalDistance.toDistance " km")])

/-- The mapping collaborator: `geocoder.geocode` either resolves an
address (`some` location, status OK) or fails (`none`), and
`directionsService.route` either returns a response (status OK) or fails
(`none`). -/
structure MappingService where
  geocode : String → Option LatLng
  route : String → String → Option RouteResponse

/-- Fare-output interactions of `MapDisplay.updateContent` for one click
(lines 398-471): `codeAddresses` geocodes the origin, then the
destination; the first failure shows
`fareOutput.showMessage(errorMessage, errorClass)` and stops; if both
succeed, `showMap` renders the route and touches the fare output never
(its directions callback, lines 384-391, only draws on OK and does
nothing otherwise). -/
def mapDisplayClickOutputs (svc : MappingService) (errorMessage errorClass : String)
    (origin destination : String) : List Output :=
  match svc.geocode origin with
  | none => [Output.message errorMessage errorClass]
  | some _ =>
    match svc.geocode destination with
    | none => [Output.message errorMessage errorClass]
    | some _ => []

/-- Fare-output interactions of `FareCalculator.updateContent` for one
click: a directions request for the two input strings, handled by the
route callback. -/
def fareCalculatorClickOutputs (svc : MappingService) (fare : FareConfig) (st : CalcState)
    (origin destination : String) : CalcState × List Output :=
  calcStep fare st (svc.route origin destination)

/-- All fare-output interactions of one "show fare" click.  Both handlers
are bound to the button (`MapDisplay` at line 334 first, `FareCalculator`
at line 682 second, matching construction order in `initialize`), and the
list concatenates their outputs in binding order.  `MapDisplay` receives
the configured `invalid_input_error_message` with the literal styling
class `'error'` (lines 119-120). -/
def clickOutputs (svc : MappingService) (fare : FareConfig) (st : CalcState)
    (errorMessage : String) (origin destination : String) : List Output :=
  mapDisplayClickOutputs svc errorMessage "error" origin destination ++
    (fareCalculatorClickOutputs svc fare st origin destination).2

/-- The worked configuration of the specification:
`baseRate = 4.25`, `distanceUnit = 0.5`, `ratePerDistanceUnit = 1.75`. -/
def torontoCfg : FareConfig := mkFareConfig 4.25 0.5 1.75

/-- A collaborator that geocodes every address but finds no route:
exercises a pure routing failure. -/
def geocodeOkNoRouteSvc : MappingService :=
  ⟨fun _ => some ⟨0, 0⟩, fun _ _ => none⟩

/-- A collaborator for which every geocode and every route request
fails: exercises an unresolvable origin. -/
def allFailSvc : MappingService :=
  ⟨fun _ => none, fun _ _ => none⟩

/-- A directions response of 1300 meters whose unread fields carry one
set of junk values. -/
def resp1300a : RouteResponse :=
  ⟨[⟨[⟨⟨1300, "1.3 km"⟩, 240⟩, ⟨⟨999, "junk"⟩, 1⟩], "Bay St"⟩,
    ⟨[⟨⟨5, "5 m"⟩, 2⟩], "other"⟩], "a"⟩

/-- A directions response agreeing with `resp1300a` on
`routes[0].legs[0].distance.value` and on nothing else. -/
def resp1300b : RouteResponse :=
  ⟨[⟨[⟨⟨1300, "totally different text"⟩, 9999⟩], "Yonge St"⟩], "b"⟩

/-- The scale loop computes `10 ^ decimalPlaces`. -/
theorem scaleOf_eq_pow (n : ℕ) : scaleOf n = 10 ^ n := by
  induction n with
  | zero => rfl
  | succ k ih => rw [scaleOf, ih, pow_succ]

/-- `Decimal.value` is exactly the specification truncation. -/
theorem Decimal.value_eq_truncate (a : ℚ) (n : ℕ) :
    Decimal.value ⟨a, n⟩ = truncate a n := by
  simp [Decimal.value, truncate, scaleOf_eq_pow]

/-- The ceiling expressed through the floor, so that floors of rational
literals can be evaluated. -/
theorem ceil_via_floor (a : ℚ) : ⌈a⌉ = -⌊-a⌋ := by
  rw [Int.floor_neg, neg_neg]

/-- Evaluation rule for `jsToFixed` on a non-negative argument whose
scaled rounding is known. -/
theorem jsToFixed_of_nonneg (d : ℕ) (x : ℚ) (m : ℕ) (hx : ¬ x < 0)
    (hm : ⌊x * 10 ^ d + 1 / 2⌋ = (m : ℤ)) : jsToFixed d x = fixedDigits m d := by
  rw [jsToFixed, if_neg hx, hm, Int.toNat_natCast]

/-- Scaling a truncation back up recovers the floored integer. -/
theorem truncate_mul_pow (x : ℚ) (n : ℕ) :
    truncate x n * 10 ^ n = (⌊x * 10 ^ n⌋ : ℚ) := by
  have h : (10 : ℚ) ^ n ≠ 0 := by positivity
  rw [truncate, div_mul_cancel₀ _ h]

/-- A value already expressible over the scale denominator is left
unchanged by truncation. -/
theorem truncate_of_int_mul (x : ℚ) (n : ℕ) (k : ℤ) (h : x * 10 ^ n = (k : ℚ)) :
    truncate x n = x := by
  have h10 : (10 : ℚ) ^ n ≠ 0 := by positivity
  have hx : x = (k : ℚ) / 10 ^ n := by
    field_simp at h ⊢
    linarith [h]
  rw [truncate, h, Int.floor_intCast, hx]

/-- Truncating twice at the same precision is the same as truncating
once. -/
theorem truncate_idem (x : ℚ) (n : ℕ) : truncate (truncate x n) n = truncate x n := by
  exact truncate_of_int_mul _ n ⌊x * 10 ^ n⌋ (truncate_mul_pow x n)

/-- The first computed variable of the route callback, as a truncation. -/
theorem totalDistance_value (fare : FareConfig) (d : ℚ) :
    (updateContentCompute fare d).totalDistance.value = truncate (d / 1000) 3 := by
  simp [updateContentCompute, Decimal.value_eq_truncate]

/-- The second computed variable of the route callback, as a truncation. -/
theorem distanceOverBase_value (fare : FareConfig) (d : ℚ) :
    (updateContentCompute fare d).distanceOverBase.value =
      truncate ((updateContentCompute fare d).totalDistance.value -
        fare.distanceUnit.value) 3 := by
  simp [updateContentCompute, Decimal.value_eq_truncate]

/-- The tier count is the ceiling applied to the quotient of the stored
truncated excess by the configured unit, with nothing further truncated. -/
theorem tierCount_eq (fare : FareConfig) (d : ℚ) :
    ((tierCount fare d : ℤ) : ℚ) =
      jsCeil ((updateContentCompute fare d).distanceOverBase.value /
        fare.distanceUnit.value) := rfl

/-- The third computed variable of the route callback, as a truncation. -/
theorem distanceFare_value (fare : FareConfig) (d : ℚ) :
    (updateContentCompute fare d).distanceFare.value =
      truncate (fare.ratePerDistanceUnit.value * ((tierCount fare d : ℤ) : ℚ)) 2 := by
  simp [updateContentCompute, tierCount, jsCeil, Decimal.value_eq_truncate]

/-- The fourth computed variable of the route callback, as a truncation. -/
theorem totalFare_value (fare : FareConfig) (d : ℚ) :
    (updateContentCompute fare d).totalFare.value =
      truncate (fare.baseRate.value + (updateContentCompute fare d).distanceFare.value) 2 := by
  simp [updateContentCompute, Decimal.value_eq_truncate]

/-- C2: a `Decimal` built from amount `a` and `n` decimal places always
reads back as `floor(a * 10^n) / 10^n` — floor truncation at the stated
precision, never nearest-value rounding; `Decimal(2.4999, 3)` reads as
`2.499` (not `2.5`), and `Decimal(-1.2349, 2)` reads as `-1.24`, the
floor acting toward negative infinity on negative amounts. -/
theorem C2_decimal_reads_floor_truncation :
    (∀ (a : ℚ) (n : ℕ), Decimal.value ⟨a, n⟩ = (⌊a * 10 ^ n⌋ : ℚ) / 10 ^ n) ∧
    Decimal.value ⟨2.4999, 3⟩ = 2.499 ∧
    Decimal.value ⟨2.4999, 3⟩ ≠ 2.5 ∧
    Decimal.value ⟨-1.2349, 2⟩ = -1.24 := by
  refine ⟨fun a n => by simp [Decimal.value, scaleOf_eq_pow], ?_, ?_, ?_⟩ <;>
    norm_num [Decimal.value, scaleOf]

/-- C6: `toCurrency` renders the truncated value at exactly 2 decimal
places behind the given prefix and `toDistance` at exactly 3 decimal
places before the given suffix, both regardless of the object's own
`decimalPlaces`; `Decimal(3, 0).toCurrency('$') = "$3.00"` and
`Decimal(7.2, 3).toDistance(' km') = "7.200 km"`. -/
theorem C6_fixed_width_formatting :
    (∀ (dec : Decimal) (s : String),
      dec.toCurrency s = s ++ jsToFixed 2 dec.value ∧
      dec.toDistance s = jsToFixed 3 dec.value ++ s) ∧
    Decimal.toCurrency ⟨3, 0⟩ "$" = "$3.00" ∧
    Decimal.toDistance ⟨7.2, 3⟩ " km" = "7.200 km" := by
  refine ⟨fun dec s => ⟨rfl, rfl⟩, ?_, ?_⟩
  · have h : Decimal.value ⟨3, 0⟩ = 3 := by norm_num [Decimal.value, scaleOf]
    rw [Decimal.toCurrency, h, jsToFixed_of_nonneg 2 3 300 (by norm_num) (by norm_num)]
    rfl
  · have h : Decimal.value ⟨7.2, 3⟩ = 7.2 := by norm_num [Decimal.value, scaleOf]
    rw [Decimal.toDistance, h, jsToFixed_of_nonneg 3 7.2 7200 (by norm_num) (by norm_num)]
    rfl

/-- C7: under `baseRate = 4.25`, `distanceUnit = 0.5`,
`ratePerDistanceUnit = 1.75`, a 0.5 km route gives
`distanceOverBase = 0`, `tierCount = 0`, `distanceFare = 0` and
`totalFare = 4.25`, and a 1.3 km route gives `distanceOverBase = 0.8`,
`tierCount = 2`, `distanceFare = 3.50` and `totalFare = 7.75`. -/
theorem C7_worked_examples :
    ((updateContentCompute torontoCfg 500).totalDistance.value = 0.5 ∧
     (updateContentCompute torontoCfg 500).distanceOverBase.value = 0 ∧
     tierCount torontoCfg 500 = 0 ∧
     (updateContentCompute torontoCfg 500).distanceFare.value = 0 ∧
     (updateContentCompute torontoCfg 500).totalFare.value = 4.25) ∧
    ((updateContentCompute torontoCfg 1300).totalDistance.value = 1.3 ∧
     (updateContentCompute torontoCfg 1300).distanceOverBase.value = 0.8 ∧
     tierCount torontoCfg 1300 = 2 ∧
     (updateContentCompute torontoCfg 1300).distanceFare.value = 3.5 ∧
     (updateContentCompute torontoCfg 1300).totalFare.value = 7.75) := by
  constructor <;>
    norm_num [updateContentCompute, tierCount, Decimal.value, scaleOf, jsCeil,
      mkFareConfig, torontoCfg, ceil_via_floor]

/-- C1: for every configuration and route distance of `d` meters, with a
positive distance unit, the route callback computes
`totalDistanceKm = truncate(d / 1000, 3)`,
`distanceOverBase = truncate(totalDistanceKm - distanceUnit, 3)`,
`tierCount = ceil(distanceOverBase / distanceUnit)` on the untruncated
quotient, `distanceFare = truncate(ratePerDistanceUnit * tierCount, 2)`
and `totalFare = truncate(baseRate + distanceFare, 2)`, where
`truncate(x, n) = floor(x * 10^n) / 10^n`. -/
theorem C1_fare_pipeline (fare : FareConfig) (d : ℚ)
    (hu : 0 < fare.distanceUnit.value) :
    (updateContentCompute fare d).totalDistance.value = truncate (d / 1000) 3 ∧
    (updateContentCompute fare d).distanceOverBase.value =
      truncate ((updateContentCompute fare d).totalDistance.value -
        fare.distanceUnit.value) 3 ∧
    ((tierCount fare d : ℤ) : ℚ) =
      jsCeil ((updateContentCompute fare d).distanceOverBase.value /
        fare.distanceUnit.value) ∧
    (updateContentCompute fare d).distanceFare.value =
      truncate (fare.ratePerDistanceUnit.value * ((tierCount fare d : ℤ) : ℚ)) 2 ∧
    (updateContentCompute fare d).totalFare.value =
      truncate (fare.baseRate.value + (updateContentCompute fare d).distanceFare.value) 2 :=
  ⟨totalDistance_value fare d, distanceOverBase_value fare d, tierCount_eq fare d,
    distanceFare_value fare d, totalFare_value fare d⟩

/-- Witness for C1 at the Toronto configuration and a 1300 m route. -/
theorem C1_fare_pipeline_witness :
    0 < torontoCfg.distanceUnit.value ∧
    ((updateContentCompute torontoCfg 1300).totalDistance.value =
        truncate (1300 / 1000) 3 ∧
      (updateContentCompute torontoCfg 1300).distanceOverBase.value =
        truncate ((updateContentCompute torontoCfg 1300).totalDistance.value -
          torontoCfg.distanceUnit.value) 3 ∧
      ((tierCount torontoCfg 1300 : ℤ) : ℚ) =
        jsCeil ((updateContentCompute torontoCfg 1300).distanceOverBase.value /
          torontoCfg.distanceUnit.value) ∧
      (updateContentCompute torontoCfg 1300).distanceFare.value =
        truncate (torontoCfg.ratePerDistanceUnit.value *
          ((tierCount torontoCfg 1300 : ℤ) : ℚ)) 2 ∧
      (updateContentCompute torontoCfg 1300).totalFare.value =
        truncate (torontoCfg.baseRate.value +
          (updateContentCompute torontoCfg 1300).distanceFare.value) 2) :=
  ⟨by norm_num [torontoCfg, mkFareConfig, Decimal.value, scaleOf],
    C1_fare_pipeline torontoCfg 1300
      (by norm_num [torontoCfg, mkFareConfig, Decimal.value, scaleOf])⟩

/-- C5: at the Toronto configuration a 0.2 km route yields
`distanceOverBase = -0.3`, `tierCount = 0` and `totalFare = 4.25`; for
every route whose truncated distance lies below the base tier,
`distanceOverBase` is negative and `tierCount` is negative or zero, and
whenever `tierCount` is negative the total fare drops below the base
rate — the formula is applied as written even below the base tier. -/
theorem C5_sub_base_distance :
    ((updateContentCompute torontoCfg 200).distanceOverBase.value = -0.3 ∧
     tierCount torontoCfg 200 = 0 ∧
     (updateContentCompute torontoCfg 200).totalFare.value = 4.25) ∧
    (∀ d : ℚ, (updateContentCompute torontoCfg d).totalDistance.value <
        torontoCfg.distanceUnit.value →
      (updateContentCompute torontoCfg d).distanceOverBase.value < 0 ∧
      tierCount torontoCfg d ≤ 0) ∧
    (∀ d : ℚ, tierCount torontoCfg d < 0 →
      (updateContentCompute torontoCfg d).totalFare.value <
        torontoCfg.baseRate.value) := by
  have hu : torontoCfg.distanceUnit.value = 1 / 2 := by
    norm_num [torontoCfg, mkFareConfig, Decimal.value, scaleOf]
  have hr : torontoCfg.ratePerDistanceUnit.value = 7 / 4 := by
    norm_num [torontoCfg, mkFareConfig, Decimal.value, scaleOf]
  have hb : torontoCfg.baseRate.value = 17 / 4 := by
    norm_num [torontoCfg, mkFareConfig, Decimal.value, scaleOf]
  refine ⟨?_, ?_, ?_⟩
  · norm_num [updateContentCompute, tierCount, Decimal.value, scaleOf, jsCeil,
      mkFareConfig, torontoCfg, ceil_via_floor]
  · intro d hd
    have ht := totalDistance_value torontoCfg d
    have hmul := truncate_mul_pow (d / 1000) 3
    have hdob : (updateContentCompute torontoCfg d).distanceOverBase.value =
        (updateContentCompute torontoCfg d).totalDistance.value - 1 / 2 := by
      rw [distanceOverBase_value, hu, ht]
      apply truncate_of_int_mul _ 3 (⌊d / 1000 * 10 ^ 3⌋ - 500)
      push_cast
      rw [sub_mul, hmul]
      norm_num
    rw [hu] at hd
    constructor
    · rw [hdob]
      linarith
    · rw [tierCount, hu]
      have hq : (updateContentCompute torontoCfg d).distanceOverBase.value / (1 / 2) =
          2 * (updateContentCompute torontoCfg d).distanceOverBase.value := by ring
      rw [hq]
      refine Int.ceil_le.mpr ?_
      push_cast
      rw [hdob]
      linarith
  · intro d htc
    have hdf : (updateContentCompute torontoCfg d).distanceFare.value =
        7 / 4 * ((tierCount torontoCfg d : ℤ) : ℚ) := by
      rw [distanceFare_value, hr]
      apply truncate_of_int_mul _ 2 (175 * tierCount torontoCfg d)
      push_cast
      ring
    have htf : (updateContentCompute torontoCfg d).totalFare.value =
        17 / 4 + 7 / 4 * ((tierCount torontoCfg d : ℤ) : ℚ) := by
      rw [totalFare_value, hb, hdf]
      apply truncate_of_int_mul _ 2 (425 + 175 * tierCount torontoCfg d)
      push_cast
      ring
    have hle : ((tierCount torontoCfg d : ℤ) : ℚ) ≤ -1 := by
      exact_mod_cast (by omega : tierCount torontoCfg d ≤ -1)
    rw [htf, hb]
    linarith

/-- Witness for C5 at a 0.2 km route (sub-base tier) and a 0 km route
(negative tier count). -/
theorem C5_sub_base_distance_witness :
    ((updateContentCompute torontoCfg 200).totalDistance.value <
        torontoCfg.distanceUnit.value ∧
      (updateContentCompute torontoCfg 200).distanceOverBase.value < 0 ∧
      tierCount torontoCfg 200 ≤ 0) ∧
    (tierCount torontoCfg 0 < 0 ∧
      (updateContentCompute torontoCfg 0).totalFare.value <
        torontoCfg.baseRate.value) :=
  ⟨⟨by norm_num [updateContentCompute, Decimal.value, scaleOf, mkFareConfig, torontoCfg],
      C5_sub_base_distance.2.1 200
        (by norm_num [updateContentCompute, Decimal.value, scaleOf, mkFareConfig, torontoCfg])⟩,
    ⟨by norm_num [updateContentCompute, tierCount, Decimal.value, scaleOf, jsCeil,
        mkFareConfig, torontoCfg, ceil_via_floor],
      C5_sub_base_distance.2.2 0
        (by norm_num [updateContentCompute, tierCount, Decimal.value, scaleOf, jsCeil,
          mkFareConfig, torontoCfg, ceil_via_floor])⟩⟩

/-- C9: initialization wraps the three configuration constants as
`Decimal`s at 2, 3 and 2 decimal places, the fare computation reads only
their floor-truncated values (so raw and pre-truncated constants give
identical results), and a configured base rate of 4.249 is charged
as 4.24. -/
theorem C9_config_wrapped_at_fixed_precision :
    (∀ b u r : ℚ,
      (mkFareConfig b u r).baseRate = ⟨b, 2⟩ ∧
      (mkFareConfig b u r).distanceUnit = ⟨u, 3⟩ ∧
      (mkFareConfig b u r).ratePerDistanceUnit = ⟨r, 2⟩) ∧
    (∀ b u r d : ℚ,
      updateContentCompute (mkFareConfig b u r) d =
        updateContentCompute
          (mkFareConfig (truncate b 2) (truncate u 3) (truncate r 2)) d) ∧
    (mkFareConfig 4.249 0.5 1.75).baseRate.value = 4.24 ∧
    (updateContentCompute (mkFareConfig 4.249 0.5 1.75) 500).totalFare.value = 4.24 := by
  refine ⟨fun b u r => ⟨rfl, rfl, rfl⟩, ?_, ?_, ?_⟩
  · intro b u r d
    have hb : Decimal.value ⟨truncate b 2, 2⟩ = Decimal.value ⟨b, 2⟩ := by
      rw [Decimal.value_eq_truncate, Decimal.value_eq_truncate, truncate_idem]
    have hu : Decimal.value ⟨truncate u 3, 3⟩ = Decimal.value ⟨u, 3⟩ := by
      rw [Decimal.value_eq_truncate, Decimal.value_eq_truncate, truncate_idem]
    have hr : Decimal.value ⟨truncate r 2, 2⟩ = Decimal.value ⟨r, 2⟩ := by
      rw [Decimal.value_eq_truncate, Decimal.value_eq_truncate, truncate_idem]
    simp [updateContentCompute, mkFareConfig, hb, hu, hr]
  · norm_num [mkFareConfig, Decimal.value, scaleOf]
  · norm_num [updateContentCompute, mkFareConfig, Decimal.value, scaleOf, jsCeil,
      ceil_via_floor]

/-- C10: the route callback is a pure function of the response and the
configuration — its emitted outputs do not depend on the closure state
left by earlier requests, and a second run on the identical response
emits exactly the same fare and distance strings. -/
theorem C10_pipeline_deterministic (fare : FareConfig)
    (resp : Option RouteResponse) (s1 s2 : CalcState) :
    (calcStep fare s1 resp).2 = (calcStep fare s2 resp).2 ∧
    (calcStep fare (calcStep fare s1 resp).1 resp).2 = (calcStep fare s1 resp).2 := by
  cases resp with
  | none => exact ⟨rfl, rfl⟩
  | some r => cases h : firstLegDistance r <;> simp [calcStep, h]

/-- C3 fails on the code: with both endpoints geocodable and the
directions service reporting no route — a mapping-collaborator failure —
the click produces no output at all, in particular not the fixed error
message the claim promises. -/
theorem C3_counterexample_no_route_silent :
    geocodeOkNoRouteSvc.route "A" "B" = none ∧
    clickOutputs geocodeOkNoRouteSvc torontoCfg initialCalcState "err" "A" "B" = [] ∧
    ([] : List Output) ≠ [Output.message "err" "error"] :=
  ⟨rfl, rfl, by simp⟩

/-- C3 as amended: when the directions request fails, a geocoding failure
on the origin or on the destination shows exactly the one fixed error
message and nothing else, while a pure routing failure between two
geocodable endpoints produces no output at all; in every such failure no
fare output is ever shown. -/
theorem C3_amended_failure_behaviour (svc : MappingService) (fare : FareConfig)
    (st : CalcState) (em origin destination : String)
    (hroute : svc.route origin destination = none) :
    (svc.geocode origin = none →
      clickOutputs svc fare st em origin destination = [Output.message em "error"]) ∧
    (∀ p, svc.geocode origin = some p → svc.geocode destination = none →
      clickOutputs svc fare st em origin destination = [Output.message em "error"]) ∧
    (∀ p q, svc.geocode origin = some p → svc.geocode destination = some q →
      clickOutputs svc fare st em origin destination = []) := by
  refine ⟨fun h => ?_, fun p hp h => ?_, fun p q hp hq => ?_⟩ <;>
    simp [clickOutputs, mapDisplayClickOutputs, fareCalculatorClickOutputs, calcStep,
      hroute, *]

/-- Witness for the amended C3: an unresolvable origin with a failing
route request yields exactly the fixed message. -/
theorem C3_amended_failure_behaviour_witness :
    allFailSvc.route "A" "B" = none ∧
    clickOutputs allFailSvc torontoCfg initialCalcState "bad input" "A" "B" =
      [Output.message "bad input" "error"] :=
  ⟨rfl,
    (C3_amended_failure_behaviour allFailSvc torontoCfg initialCalcState
      "bad input" "A" "B" rfl).1 rfl⟩

/-- C4: a non-OK directions status makes the fare route callback do
nothing — no state change, no `showFare`, no `showMessage`; a directions
failure between two geocodable addresses yields no output whatsoever;
and any message ever shown on a click originates from a geocoding
failure of the origin or of the destination. -/
theorem C4_directions_failure_is_silent (fare : FareConfig) (st : CalcState)
    (svc : MappingService) (em origin destination : String) :
    calcStep fare st none = (st, []) ∧
    (∀ p q, svc.geocode origin = some p → svc.geocode destination = some q →
      svc.route origin destination = none →
      clickOutputs svc fare st em origin destination = []) ∧
    (∀ text cls, Output.message text cls ∈ clickOutputs svc fare st em origin destination →
      svc.geocode origin = none ∨ svc.geocode destination = none) := by
  refine ⟨rfl, fun p q hp hq hr => ?_, fun text cls hmem => ?_⟩
  · simp [clickOutputs, mapDisplayClickOutputs, fareCalculatorClickOutputs, calcStep,
      hp, hq, hr]
  · by_cases ho : svc.geocode origin = none
    · exact Or.inl ho
    · by_cases hd : svc.geocode destination = none
      · exact Or.inr hd
      · exfalso
        obtain ⟨p, hp⟩ := Option.ne_none_iff_exists'.mp ho
        obtain ⟨q, hq⟩ := Option.ne_none_iff_exists'.mp hd
        simp only [clickOutputs, mapDisplayClickOutputs, fareCalculatorClickOutputs,
          hp, hq, List.nil_append] at hmem
        cases hr : svc.route origin destination with
        | none => simp [calcStep, hr] at hmem
        | some r =>
          cases hfl : firstLegDistance r <;> simp [calcStep, hr, hfl] at hmem

/-- Witness for C4: geocodable endpoints with a failing directions
request produce no output. -/
theorem C4_directions_failure_is_silent_witness :
    calcStep torontoCfg initialCalcState none = (initialCalcState, []) ∧
    clickOutputs geocodeOkNoRouteSvc torontoCfg initialCalcState "err" "A" "B" = [] :=
  ⟨(C4_directions_failure_is_silent torontoCfg initialCalcState geocodeOkNoRouteSvc
      "err" "A" "B").1,
    (C4_directions_failure_is_silent torontoCfg initialCalcState geocodeOkNoRouteSvc
      "err" "A" "B").2.1 ⟨0, 0⟩ ⟨0, 0⟩ rfl rfl rfl⟩

/-- C8: two OK directions responses that agree on
`routes[0].legs[0].distance.value` produce identical fare and distance
outputs under the same configuration, whatever their other legs, routes
or fields, and whatever closure state each request starts from. -/
theorem C8_only_first_leg_distance_matters (fare : FareConfig)
    (st1 st2 : CalcState) (r1 r2 : RouteResponse) (d : ℚ)
    (h1 : firstLegDistance r1 = some d) (h2 : firstLegDistance r2 = some d) :
    (calcStep fare st1 (some r1)).2 = (calcStep fare st2 (some r2)).2 := by
  simp [calcStep, h1, h2]

/-- Witness for C8: two responses agreeing only on the first leg distance
of the first route yield the same outputs. -/
theorem C8_only_first_leg_distance_matters_witness :
    firstLegDistance resp1300a = some 1300 ∧
    firstLegDistance resp1300b = some 1300 ∧
    (calcStep torontoCfg initialCalcState (some resp1300a)).2 =
      (calcStep torontoCfg ⟨some ⟨1, 1⟩, none, none, none⟩ (some resp1300b)).2 :=
  ⟨rfl, rfl,
    C8_only_first_leg_distance_matters torontoCfg initialCalcState
      ⟨some ⟨1, 1⟩, none, none, none⟩ resp1300a resp1300b 1300 rfl rfl⟩

end TaxiFare
